import Mathlib

/-!
Verification of the media-downloader bot core (shallow embedding).

The definitions below are translated from the Python sources of the
repository:

* `src/src/tasks/information_worker.py` — `MediaProcessor.parse_videos`,
  `parse_audios`, `parse_thumbnails`, `parse_images`, and the Celery task
  `get_media_info`;
* `src/src/core/abstractions.py` — `AbstractServiceResult.to_dict`;
* `src/src/core/youtube.py` — the URL-validation prefix of `extract_info`;
* `src/src/databases/redis_base.py`, `media_storage.py`, `user_storage.py`,
  `user_activity_queue.py` — Redis-backed stores with TTL;
* `src/src/app/callback_handlers.py` — `handle_video`, `handle_thumbnail`.

Conventions of the embedding:

* Python dicts produced by the extractors (TypedDicts in the source) become
  structures; a field that may be missing or `None` becomes an `Option`.
  For the selector inputs the source reads optional keys with `.get`, which
  treats a missing key and an explicit `None` identically, so one `Option`
  layer is faithful.
* Python exceptions are modelled with `Except String`; the error string
  names the Python exception class.
* Redis is modelled as a function from keys to an optional (value, expiry
  time) pair; `setex ttl` at time `now` stores expiry `now + ttl`, and a key
  is readable at time `t` iff `t < expiry`.  The md5 hashing of cache keys
  and the `user_extract:{chat}` / `user_download:{chat}` key formats are
  modelled by using the url, respectively the pair (kind, chat id), as the
  key, which is faithful up to injectivity of the key encoding.
* Time is a `Nat` passed explicitly; each Redis call in one handler runs at
  the same instant `now`.
-/

/-! ## Data model (src/src/core/abstractions.py, TypedDicts) -/

/-- `AbstractServiceVideoTypeDict`: id, url, name, has_audio, and the
nullable fields fps, width, height, language, total_bitrate,
language_preference.  (`fps` is never read by the code under study and is
omitted.) -/
structure VideoCand where
  id : String
  url : String
  name : String
  has_audio : Bool
  width : Option Int
  height : Option Int
  language : Option String
  total_bitrate : Option Int
  language_preference : Option Int
deriving DecidableEq, Repr

/-- `AbstractServiceAudioTypeDict`. -/
structure AudioCand where
  id : String
  url : String
  name : String
  author : Option String
  language : Option String
  total_bitrate : Option Int
  language_preference : Option Int
deriving DecidableEq, Repr

/-- `AbstractServiceImageTypeDict`: id, url, name, nullable width/height. -/
structure ImageCand where
  id : String
  url : String
  name : String
  width : Option Int
  height : Option Int
deriving DecidableEq, Repr

/-- `MediaButton` dataclass from information_worker.py. -/
structure MediaButton where
  row : Nat
  label : String
  callback_data : String
  url : Option String := none
deriving DecidableEq, Repr

/-- `AbstractServiceDataTypeDict` (the `media_data` payload). -/
structure MediaData where
  url : String
  is_video : Bool
  is_image : Bool
  path : Option String
  title : Option String
  author_name : Option String
  description : Option String
  videos : List VideoCand
  images : List ImageCand
  audios : List AudioCand
  thumbnails : List ImageCand
deriving DecidableEq, Repr

/-! ## Normalization (information_worker.py lines 47-54 and 107-116)

`parse_videos` and `parse_audios` first normalize the candidate dicts **in
place**: the Lean functions below return the normalized descriptor, and the
in-place effect of a call is that every element of the input list is
replaced by its image under the normalizer. -/

/-- Video normalization: `if v.get("language"): v["language"] =
v["language"].lower().strip()` (only when the value is truthy, i.e. neither
`None` nor the empty string), and missing/None `language_preference` and
`total_bitrate` become 0. -/
def normVideo (v : VideoCand) : VideoCand :=
  { v with
    language := match v.language with
      | none => none
      | some s => if s = "" then some s else some s.toLower.trim
    language_preference := some (v.language_preference.getD 0)
    total_bitrate := some (v.total_bitrate.getD 0) }

/-- Audio normalization: `lang = (audio.get("language") or
"").lower().strip(); audio["language"] = lang` (always overwritten, `None`
becomes the empty string), and missing/None `language_preference` and
`total_bitrate` become 0. -/
def normAudio (a : AudioCand) : AudioCand :=
  { a with
    language := some ((a.language.getD "").toLower.trim)
    language_preference := some (a.language_preference.getD 0)
    total_bitrate := some (a.total_bitrate.getD 0) }

/-- The in-place effect of `parse_videos` on its argument list. -/
def parse_videos_effect (videos : List VideoCand) : List VideoCand :=
  videos.map normVideo

/-- The in-place effect of `parse_audios` on its argument list. -/
def parse_audios_effect (audios : List AudioCand) : List AudioCand :=
  audios.map normAudio

/-! ## Sort keys and orders -/

/-- Python booleans compare as 0/1 inside sort-key tuples. -/
def b2i (b : Bool) : Int := if b then 1 else 0

/-- The sort key of information_worker.py line 62:
`(v.get("has_audio", False), v["language_preference"], v["total_bitrate"])`.
On normalized candidates the two `getD 0` are the stored values. -/
def videoKey (v : VideoCand) : Int × Int × Int :=
  (b2i v.has_audio, v.language_preference.getD 0, v.total_bitrate.getD 0)

/-- Lexicographic `<=` on integer triples, i.e. Python tuple comparison. -/
def keyLe (a b : Int × Int × Int) : Prop :=
  a.1 < b.1 ∨ (a.1 = b.1 ∧ (a.2.1 < b.2.1 ∨ (a.2.1 = b.2.1 ∧ a.2.2 ≤ b.2.2)))

instance : DecidableRel keyLe := fun a b => by
  unfold keyLe; infer_instance

/-- `u` sorts at or after `v` in `sorted(videos, key=..., reverse=True)`:
the key of `v` is at least the key of `u`. -/
def videoGe (v u : VideoCand) : Prop := keyLe (videoKey u) (videoKey v)

instance : DecidableRel videoGe := fun v u =>
  inferInstanceAs (Decidable (keyLe (videoKey u) (videoKey v)))

instance : IsTotal VideoCand videoGe := by
  constructor; intro a b; unfold videoGe keyLe; omega

instance : IsTrans VideoCand videoGe := by
  constructor; intro a b c h1 h2; unfold videoGe keyLe at h1 h2 ⊢; omega

/-- information_worker.py lines 60-64: `sorted(videos, key=..., reverse=True)`.
CPython's sort is stable and `reverse=True` reverses the comparisons, not
the relative order of key-equal elements; a stable insertion sort with the
"key at least as large" relation computes the same list, because it inserts
each element in front of the first strictly key-smaller element and behind
all earlier key-equal ones. -/
def sortVideosDesc (videos : List VideoCand) : List VideoCand :=
  List.insertionSort videoGe videos

/-! ## Video bucketing (information_worker.py lines 66-99) -/

/-- One step of the grouping loop (lines 68-73): `width = video.get("width");
if width:` keeps only candidates whose width is truthy (neither `None` nor
`0`), and `if width not in video_by_quality:` keeps the first candidate seen
for each width.  The Python dict is insertion ordered, rendered here as an
association list to which new widths are appended. -/
def addToBuckets (acc : List (Int × VideoCand)) (v : VideoCand) :
    List (Int × VideoCand) :=
  match v.width with
  | none => acc
  | some w =>
    if w = 0 then acc
    else if w ∈ acc.map Prod.fst then acc
    else acc ++ [(w, v)]

/-- The `video_by_quality` dict built from the normalized, descending-sorted
candidate list. -/
def videoBuckets (videos : List VideoCand) : List (Int × VideoCand) :=
  (sortVideosDesc (videos.map normVideo)).foldl addToBuckets []

/-- Descending order on bucket keys. -/
def bucketGe (p q : Int × VideoCand) : Prop := q.1 ≤ p.1

instance : DecidableRel bucketGe := fun p q =>
  inferInstanceAs (Decidable (q.1 ≤ p.1))

instance : IsTotal (Int × VideoCand) bucketGe :=
  ⟨fun p q => le_total q.1 p.1⟩

instance : IsTrans (Int × VideoCand) bucketGe :=
  ⟨fun _ _ _ h1 h2 => le_trans h2 h1⟩

/-- Line 77: `qualities = sorted(video_by_quality.keys(), reverse=True)`
followed by indexing `video_by_quality[quality]`.  Because the dict keys are
distinct, iterating the sorted keys and indexing the dict is the same as
sorting the (key, value) pairs by key in descending order. -/
def videoBucketsOrdered (videos : List VideoCand) : List (Int × VideoCand) :=
  List.insertionSort bucketGe (videoBuckets videos)

/-- Python `str(...)` of a nullable int inside an f-string. -/
def optIntStr : Option Int → String
  | some n => toString n
  | none => "None"

/-- Button built in the multi-bucket branch (lines 88-97):
label `"🎬 {height}p"` plus `" 🔊"` when the candidate has audio. -/
def videoButtonMulti (p : Int × VideoCand) : MediaButton :=
  { row := 1
    label := "🎬 " ++ optIntStr p.2.height ++ "p" ++
      (if p.2.has_audio then " 🔊" else "")
    callback_data := "video:" ++ p.2.id }

/-- Button built in the single-bucket branch (lines 79-86). -/
def videoButtonSingle (v : VideoCand) : MediaButton :=
  { row := 1
    label := if v.has_audio then "🎬 Video + Audio" else "🎬 Video"
    callback_data := "video:" ++ v.id }

/-- `MediaProcessor.parse_videos` (information_worker.py lines 41-99). -/
def MediaProcessor.parse_videos (videos : List VideoCand) : List MediaButton :=
  match videos with
  | [] => []
  | _ =>
    match videoBucketsOrdered videos with
    | [p] => [videoButtonSingle p.2]
    | l => l.map videoButtonMulti

/-! ## Audio selection (information_worker.py lines 101-129) -/

/-- The key of line 121: `(a["language_preference"], a["total_bitrate"])`. -/
def audioKey (a : AudioCand) : Int × Int :=
  (a.language_preference.getD 0, a.total_bitrate.getD 0)

/-- Lexicographic strict `<` on integer pairs (Python tuple comparison). -/
def pairLt (p q : Int × Int) : Prop :=
  p.1 < q.1 ∨ (p.1 = q.1 ∧ p.2 < q.2)

/-- Lexicographic `<=` on integer pairs. -/
def pairLe (p q : Int × Int) : Prop :=
  p.1 < q.1 ∨ (p.1 = q.1 ∧ p.2 ≤ q.2)

instance : DecidableRel pairLt := fun p q => by
  unfold pairLt; infer_instance

instance : DecidableRel pairLe := fun p q => by
  unfold pairLe; infer_instance

/-- Python `max(iterable, key=...)`: walk the list keeping the current best,
replacing it only when a strictly larger key appears (so the first of
key-equal maxima wins). -/
def py_max_audio (best : AudioCand) : List AudioCand → AudioCand
  | [] => best
  | a :: rest =>
    py_max_audio (if pairLt (audioKey best) (audioKey a) then a else best) rest

/-- `MediaProcessor.parse_audios` (information_worker.py lines 101-129):
normalize every candidate in place, then pick
`max(audios, key=lambda a: (a["language_preference"], a["total_bitrate"]))`
and wrap it in the single audio button. -/
def MediaProcessor.parse_audios (audios : List AudioCand) : Option MediaButton :=
  match audios.map normAudio with
  | [] => none
  | a :: rest =>
    let best := py_max_audio a rest
    some { row := 2, label := "🎵 Audio"
           callback_data := "audio:" ++ best.id
           url := some best.url }

/-- `MediaProcessor.parse_thumbnails` (lines 131-144): take the last
element of the thumbnail list. -/
def MediaProcessor.parse_thumbnails (thumbnails : List ImageCand) :
    Option MediaButton :=
  match thumbnails.getLast? with
  | none => none
  | some t =>
    some { row := 3, label := "🖼️ Preview"
           callback_data := "thumbnail:" ++ t.id
           url := some t.url }

/-! ## Image grouping (information_worker.py lines 146-176)

Unlike `parse_videos`, `parse_images` groups by `image["width"]` without
filtering out a `None` width, and then computes `max(images_by_width.keys())`.
In Python 3 any `>` comparison between `None` and an int raises `TypeError`,
so the maximum is modelled as an `Except`. -/

/-- Grouping loop of lines 153-158: append to the group of the candidate's
width, keys in insertion order, a new key appended at the end. -/
def addToImageGroups (acc : List (Option Int × List ImageCand))
    (img : ImageCand) : List (Option Int × List ImageCand) :=
  match acc with
  | [] => [(img.width, [img])]
  | (w, l) :: rest =>
    if img.width = w then (w, l ++ [img]) :: rest
    else (w, l) :: addToImageGroups rest img

/-- Python `>` on dict keys that are either `None` or an int: comparing
`None` with anything raises `TypeError`. -/
def pyGtOpt : Option Int → Option Int → Except String Bool
  | some a, some b => .ok (decide (b < a))
  | _, _ => .error "TypeError"

/-- Python `max` over the (distinct) group keys: fold keeping the current
maximum, propagating the `TypeError` of a `None`-vs-int comparison. -/
def py_max_keys (cur : Option Int) : List (Option Int) →
    Except String (Option Int)
  | [] => .ok cur
  | k :: ks => do
    let g ← pyGtOpt k cur
    py_max_keys (if g then k else cur) ks

/-- `MediaProcessor.parse_images` (information_worker.py lines 146-176).
The `match` on the key list mirrors
`max_quality = max(images_by_width.keys()) if images_by_width else 0`;
with a nonempty input the group list is never empty.  The group lookup is
`images_by_width.get(max_quality, [])`. -/
def MediaProcessor.parse_images (images : List ImageCand) :
    Except String (Option MediaButton) :=
  match images with
  | [] => .ok none
  | _ => do
    let groups := images.foldl addToImageGroups []
    let maxq ← match groups.map Prod.fst with
      | [] => pure (some 0)
      | k :: ks => py_max_keys k ks
    let best := ((groups.find? (fun p => p.1 = maxq)).map Prod.snd).getD []
    match best with
    | [] => .ok none
    | b :: rest =>
      .ok (some { row := 1
                  label := if rest = [] then "🖼️ Image" else "🖼️ Images"
                  callback_data := "image"
                  url := some b.url })

/-! ## Redis-backed stores (src/src/databases)

All three storage classes share the same shape (redis_base.py): JSON
serialization is lossless for the records involved and is modelled as the
identity; every write is `setex(key, ttl, value)` and every read of a live
key immediately re-issues `setex` with the same value (TTL refresh). -/

/-- A Redis database: each key maps to an optional (value, expiry time). -/
def KV (K V : Type) := K → Option (V × Nat)

/-- `setex(key, ttl, value)` executed at time `now` has stored the pair
(value, now + ttl); this is the caller-facing form with an explicit expiry. -/
def kvSet {K V : Type} [DecidableEq K] (st : KV K V) (k : K) (v : V)
    (expiry : Nat) : KV K V :=
  fun q => if q = k then some (v, expiry) else st q

/-- `get(key)` at time `now`: an entry is visible while `now < expiry`. -/
def kvLive {K V : Type} (st : KV K V) (now : Nat) (k : K) : Option V :=
  match st k with
  | some (v, e) => if now < e then some v else none
  | none => none

/-- `delete(key)`. -/
def kvDel {K V : Type} [DecidableEq K] (st : KV K V) (k : K) : KV K V :=
  fun q => if q = k then none else st q

/-- The shared read pattern of `get_media` / `get_session` / `get_extract` /
`get_download`: on a hit, re-`setex` the deserialized value with the full
TTL; on a miss return `None` and leave the store unchanged. -/
def kvGetRefresh {K V : Type} [DecidableEq K] (ttl : Nat) (st : KV K V)
    (now : Nat) (k : K) : Option V × KV K V :=
  match kvLive st now k with
  | some v => (some v, kvSet st k v (now + ttl))
  | none => (none, st)

/-- The `{"url": url, "data": media_data}` record of media_storage.py. -/
structure CacheEntry where
  url : String
  data : MediaData
deriving DecidableEq, Repr

/-- The `{"url", "service", "media_data"}` record of user_storage.py. -/
structure SessionData where
  url : String
  service : String
  media_data : MediaData
deriving DecidableEq, Repr

/-- The `{"url", "service"}` record of user_activity_queue.py. -/
structure LeaseData where
  url : String
  service : String
deriving DecidableEq, Repr

/-- The two lease kinds of the activity queue; the Redis keys
`user_extract:{chat_id}` and `user_download:{chat_id}` are modelled as the
pair (kind, chat_id). -/
inductive LeaseKind where
  | extract
  | download
deriving DecidableEq, Repr

/-- The activity-queue database. -/
def LeaseKV := KV (LeaseKind × Int) LeaseData

/-- `MediaCacheStorage.store_media` (media_storage.py lines 59-93); the key
`media_cache:{md5(url)}` is modelled by the url itself. -/
def MediaCacheStorage.store_media (ttl : Nat) (st : KV String CacheEntry)
    (now : Nat) (url : String) (media_data : MediaData) : KV String CacheEntry :=
  kvSet st url ⟨url, media_data⟩ (now + ttl)

/-- `MediaCacheStorage.get_media` (media_storage.py lines 95-126): read and
refresh the TTL on hit. -/
def MediaCacheStorage.get_media (ttl : Nat) (st : KV String CacheEntry)
    (now : Nat) (url : String) : Option CacheEntry × KV String CacheEntry :=
  kvGetRefresh ttl st now url

/-- `UserSessionStorage.create_session` (user_storage.py lines 46-83). -/
def UserSessionStorage.create_session (ttl : Nat) (st : KV Int SessionData)
    (now : Nat) (chat_id : Int) (url service : String)
    (media_data : MediaData) : KV Int SessionData :=
  kvSet st chat_id ⟨url, service, media_data⟩ (now + ttl)

/-- `UserSessionStorage.get_session` (user_storage.py lines 85-113). -/
def UserSessionStorage.get_session (ttl : Nat) (st : KV Int SessionData)
    (now : Nat) (chat_id : Int) : Option SessionData × KV Int SessionData :=
  kvGetRefresh ttl st now chat_id

/-- `UserActivityQueue.create_extract` / `create_download`
(user_activity_queue.py lines 60-132), indexed by the lease kind. -/
def UserActivityQueue.create_task (ttl : Nat) (st : LeaseKV) (now : Nat)
    (kind : LeaseKind) (chat_id : Int) (url service : String) : LeaseKV :=
  kvSet st (kind, chat_id) ⟨url, service⟩ (now + ttl)

/-- `UserActivityQueue.get_extract` / `get_download` (lines 134-186). -/
def UserActivityQueue.get_task (ttl : Nat) (st : LeaseKV) (now : Nat)
    (kind : LeaseKind) (chat_id : Int) : Option LeaseData × LeaseKV :=
  kvGetRefresh ttl st now (kind, chat_id)

/-- `UserActivityQueue.delete_extract` / `delete_download` (lines 188-236):
Redis `DELETE` returns whether a (live) key was removed. -/
def UserActivityQueue.delete_task (st : LeaseKV) (now : Nat)
    (kind : LeaseKind) (chat_id : Int) : Bool × LeaseKV :=
  ((kvLive st now (kind, chat_id)).isSome, kvDel st (kind, chat_id))

/-! ## Admission control -/

/-- Result of the admission prefix of a job handler. -/
inductive AdmissionOutcome where
  | busy
  | started
deriving DecidableEq, Repr

/-- The admission prefix of `get_media_info` (information_worker.py lines
204-215): if `get_extract` finds a live lease, notify "already in progress"
and return; otherwise `create_extract`. -/
def extract_admission (ttl : Nat) (st : LeaseKV) (now : Nat) (chat_id : Int)
    (url service : String) : AdmissionOutcome × LeaseKV :=
  match UserActivityQueue.get_task ttl st now .extract chat_id with
  | (some _, st1) => (.busy, st1)
  | (none, st1) =>
    (.started, UserActivityQueue.create_task ttl st1 now .extract chat_id url service)

/-- Result of the admission prefix of `handle_video` / `handle_audio`. -/
inductive DownloadAdmission where
  | busy
  | expired
  | started
deriving DecidableEq, Repr

/-- The admission prefix of `ServiceCallbackHandler.handle_video`
(callback_handlers.py lines 12-17, 26-32, 43-47): reject when a download
lease is live, ask to resend when the session is absent, otherwise
`create_download` from the session's url and service. -/
def download_admission (ttl : Nat) (st : LeaseKV) (now : Nat) (chat_id : Int)
    (session : Option SessionData) : DownloadAdmission × LeaseKV :=
  match UserActivityQueue.get_task ttl st now .download chat_id with
  | (some _, st1) => (.busy, st1)
  | (none, st1) =>
    match session with
    | none => (.expired, st1)
    | some s =>
      (.started, UserActivityQueue.create_task ttl st1 now .download chat_id s.url s.service)

/-! ## Service results (src/src/core/abstractions.py) -/

/-- `AbstractServiceResult`: status is the literal "success" or "error",
`code` is the error-code string (`code.value`), `data` is optional. -/
structure ServiceResult where
  status : String
  context : Option String
  code : String
  data : Option MediaData
deriving DecidableEq, Repr

/-- `AbstractServiceResultTypeDict` as actually produced by a successful
`to_dict` (whose `data` field is never `None`, since building it from a
`None` `data` raises instead). -/
structure ResponseDict where
  status : String
  context : Option String
  code : String
  data : MediaData
deriving DecidableEq, Repr

/-- `AbstractServiceResult.to_dict` (abstractions.py lines 267-279): the
dict is built with `"data": self.data.to_dict()` unconditionally, so a
result whose `data` is `None` raises `AttributeError` instead of returning
a record. -/
def ServiceResult.to_dict (r : ServiceResult) : Except String ResponseDict :=
  match r.data with
  | none => .error "AttributeError"
  | some d => .ok ⟨r.status, r.context, r.code, d⟩

/-! ## YouTube URL validation (src/src/core/youtube.py lines 250-300)

`get_service_downloader` (tasks/common.py line 58) constructs a fresh
downloader per task, whose `self._data` is initialized to `None` and is
assigned only after the two URL checks below, so the `EMPTY_URL` and
`INVALID_URL` error results of `extract_info` carry `data = None`. -/

/-- `needle` starts the list `hay`. -/
def listStartsWith {α : Type} [DecidableEq α] : List α → List α → Bool
  | _, [] => true
  | [], _ :: _ => false
  | a :: hay, b :: needle => if a = b then listStartsWith hay needle else false

/-- `needle` occurs somewhere inside `hay`. -/
def listContainsSub {α : Type} [DecidableEq α] : List α → List α → Bool
  | [], needle => needle.isEmpty
  | a :: hay, needle => listStartsWith (a :: hay) needle || listContainsSub hay needle

/-- Python's `needle in hay` on strings (substring test). -/
def pyIn (needle hay : String) : Bool := listContainsSub hay.toList needle.toList

/-- The characters after the first occurrence of `"://"`, if any. -/
def dropThroughScheme : List Char → Option (List Char)
  | [] => none
  | a :: rest =>
    if listStartsWith (a :: rest) [':', '/', '/'] then some (rest.drop 2)
    else dropThroughScheme rest

/-- The characters before the first `/`, `?` or `#`. -/
def takeUntilDelims : List Char → List Char
  | [] => []
  | a :: rest =>
    if a = '/' ∨ a = '?' ∨ a = '#' then [] else a :: takeUntilDelims rest

/-- `urlparse(url).netloc`, simplified to: the text between `"://"` and the
next `/`, `?` or `#` (enough for the URLs considered here); no scheme means
an empty netloc. -/
def urlNetloc (url : String) : String :=
  match dropThroughScheme url.toList with
  | none => ""
  | some rest => String.mk (takeUntilDelims rest)

/-- `YoutubeDownloader._validate_youtube_url` (youtube.py lines 250-265):
`any(domain in parsed.netloc for domain in [...])`. -/
def validate_youtube_url (url : String) : Bool :=
  ["youtube.com", "youtu.be", "www.youtube.com"].any
    (fun d => pyIn d (urlNetloc url))

/-- The validation prefix of `YoutubeDownloader.extract_info` (youtube.py
lines 279-300) on a freshly constructed downloader: an empty url yields an
`EMPTY_URL` error result and a non-YouTube url an `INVALID_URL` error
result, both with `data = self._data = None`; `none` means the function
proceeds to the network-backed part, which is outside this model. -/
def YoutubeDownloader.extract_info_early (url : String) : Option ServiceResult :=
  if url = "" then
    some { status := "error", context := some "Предоставлен неверный URL"
           code := "EMPTY_URL", data := none }
  else if ¬ validate_youtube_url url then
    some { status := "error"
           context := some "Неверный или неподдерживаемый URL YouTube"
           code := "INVALID_URL", data := none }
  else none

/-! ## The extraction worker (information_worker.py lines 202-375) -/

/-- The outbound Telegram actions of the worker, in order of issue. -/
inductive BotMessage where
  | busyNotice
  | gotLink
  | searching
  | deleted
  | failureNotice (code : String)
  | resultPhoto (buttons : List MediaButton)
deriving DecidableEq, Repr

/-- Number of failure notifications in a message log. -/
def failureCount (msgs : List BotMessage) : Nat :=
  (msgs.filter fun m => match m with
    | .failureNotice _ => true
    | _ => false).length

/-- The Redis-backed state visible to `get_media_info`, plus the log of
outbound messages. -/
structure WorkerEnv where
  activity : LeaseKV
  cache : KV String CacheEntry
  sessions : KV Int SessionData
  messages : List BotMessage

/-- An optional button contributes zero or one buttons. -/
def optList : Option MediaButton → List MediaButton
  | none => []
  | some b => [b]

/-- The button assembly of `_handle_success_response` (lines 295-318). -/
def buildButtons (m : MediaData) : Except String (List MediaButton) :=
  if m.is_video then
    .ok (MediaProcessor.parse_videos m.videos ++
         optList (MediaProcessor.parse_audios m.audios) ++
         optList (MediaProcessor.parse_thumbnails m.thumbnails))
  else if m.is_image then do
    let ib ← MediaProcessor.parse_images m.images
    .ok (optList ib ++ optList (MediaProcessor.parse_audios m.audios))
  else .ok []

/-- `get_media_info` (information_worker.py lines 202-269) together with
`_handle_success_response` and `_handle_error_response`.  The task body has
no try/except, so any exception raised inside it escapes the Celery task;
this is modelled by the `Except.error` branch, which carries the state at
the moment of the raise.  The extractor call
`downloader.extract_info(url).to_dict()` is split: the caller passes the
`ServiceResult` the extractor would return, and the model applies
`to_dict` to it exactly where line 250 does. -/
def get_media_info (ttl_act ttl_cache ttl_sess : Nat) (env : WorkerEnv)
    (now : Nat) (chat_id : Int) (url service : String)
    (extractor_result : ServiceResult) :
    Except (String × WorkerEnv) WorkerEnv :=
  match UserActivityQueue.get_task ttl_act env.activity now .extract chat_id with
  | (some _, act1) =>
    .ok { env with activity := act1, messages := env.messages ++ [.busyNotice] }
  | (none, act1) =>
    let act2 := UserActivityQueue.create_task ttl_act act1 now .extract chat_id url service
    let msgs1 := env.messages ++ [.gotLink, .deleted, .searching]
    let lookup := MediaCacheStorage.get_media ttl_cache env.cache now url
    let env1 : WorkerEnv :=
      { activity := act2, cache := lookup.2, sessions := env.sessions, messages := msgs1 }
    let respE : Except String ResponseDict :=
      match lookup.1 with
      | some entry =>
        .ok { status := "success", context := none, code := "SUCCESS", data := entry.data }
      | none => extractor_result.to_dict
    match respE with
    | .error e => .error (e, env1)
    | .ok resp =>
      if resp.status = "success" then
        let sess1 := UserSessionStorage.create_session ttl_sess env1.sessions now
          chat_id url service resp.data
        let cache2 := MediaCacheStorage.store_media ttl_cache env1.cache now url resp.data
        match buildButtons resp.data with
        | .error e => .error (e, { env1 with sessions := sess1, cache := cache2 })
        | .ok buttons =>
          let env2 : WorkerEnv :=
            { activity := act2, cache := cache2, sessions := sess1
              messages := msgs1 ++ [.deleted, .resultPhoto buttons] }
          .ok { env2 with
                activity := (UserActivityQueue.delete_task env2.activity now .extract chat_id).2 }
      else
        let env2 : WorkerEnv := { env1 with messages := msgs1 ++ [.deleted, .failureNotice resp.code] }
        .ok { env2 with
              activity := (UserActivityQueue.delete_task env2.activity now .extract chat_id).2 }

/-- Projection: the state carried by an escaped exception. -/
def crashEnv : Except (String × WorkerEnv) WorkerEnv → Option WorkerEnv
  | .error (_, e) => some e
  | .ok _ => none

/-- Projection: the name of an escaped exception. -/
def crashMsg : Except (String × WorkerEnv) WorkerEnv → Option String
  | .error (s, _) => some s
  | .ok _ => none

/-- Projection: the final state of a normally terminated task. -/
def okEnv : Except (String × WorkerEnv) WorkerEnv → Option WorkerEnv
  | .ok e => some e
  | .error _ => none

/-! ## Callback handlers (src/src/app/callback_handlers.py) -/

/-- Split a character list at every occurrence of the separator `c`. -/
def splitCharsOn (c : Char) : List Char → List (List Char)
  | [] => [[]]
  | a :: rest =>
    if a = c then [] :: splitCharsOn c rest
    else
      match splitCharsOn c rest with
      | h :: t => (a :: h) :: t
      | [] => [[a]]

/-- Python `s.split(":")` (always returns at least one piece). -/
def pySplitColon (s : String) : List String :=
  (splitCharsOn ':' s.toList).map String.mk

/-- Observable outcome of `handle_thumbnail`. -/
inductive ThumbReply where
  | resendAlert
  | photoSent (url : String)
deriving DecidableEq, Repr

/-- Observable outcome of `handle_video` (the per-service dispatch after a
successful lookup is collapsed into `dispatched`). -/
inductive VideoReply where
  | busyAlert
  | resendAlert
  | dispatched (name : String)
deriving DecidableEq, Repr

/-- `ServiceCallbackHandler.handle_thumbnail` (callback_handlers.py lines
173-191): absent session asks to resend the link; otherwise
`[t for t in session["media_data"]["thumbnails"] if t["id"] == id][0]`
raises `IndexError` when the id matches nothing, and a malformed callback
string raises `ValueError` at tuple unpacking. -/
def ServiceCallbackHandler.handle_thumbnail (session : Option SessionData)
    (callback_data : String) : Except String ThumbReply :=
  match session with
  | none => .ok .resendAlert
  | some s =>
    match pySplitColon callback_data with
    | [_, tid] =>
      match s.media_data.thumbnails.filter (fun t => t.id == tid) with
      | [] => .error "IndexError"
      | t :: _ => .ok (.photoSent t.url)
    | _ => .error "ValueError"

/-- `ServiceCallbackHandler.handle_video` (callback_handlers.py lines
11-81): reject while a download lease is live, ask to resend when the
session is absent, then look the id up in the session's own `videos`
collection; a stale id raises `IndexError` at `[...][0]` before any lease
is written or any job dispatched. -/
def ServiceCallbackHandler.handle_video (has_download_lease : Bool)
    (session : Option SessionData) (callback_data : String) :
    Except String VideoReply :=
  if has_download_lease then .ok .busyAlert
  else
    match session with
    | none => .ok .resendAlert
    | some s =>
      match pySplitColon callback_data with
      | [_, vid] =>
        match s.media_data.videos.filter (fun v => v.id == vid) with
        | [] => .error "IndexError"
        | v :: _ => .ok (.dispatched v.name)
      | _ => .error "ValueError"

/-! ## Concrete fixtures used by the closed theorems below -/

/-- Tie-break fixture: no audio track, bitrate 900, width 640. -/
def tieNoAudio : VideoCand :=
  { id := "vid-900", url := "u900", name := "f900", has_audio := false
    width := some 640, height := some 360, language := none
    total_bitrate := some 900, language_preference := none }

/-- Tie-break fixture: audio track, bitrate 500, same width 640. -/
def tieWithAudio : VideoCand :=
  { id := "vid-500", url := "u500", name := "f500", has_audio := true
    width := some 640, height := some 360, language := none
    total_bitrate := some 500, language_preference := none }

/-- A candidate whose width is present (non-null) but equal to 0. -/
def zeroWidthVideo : VideoCand :=
  { id := "zw", url := "uz", name := "fz", has_audio := false
    width := some 0, height := some 0, language := none
    total_bitrate := some 100, language_preference := some 1 }

/-- A video candidate with a null width. -/
def nullWidthVideo : VideoCand :=
  { id := "nw", url := "un", name := "fn", has_audio := false
    width := none, height := none, language := none
    total_bitrate := none, language_preference := none }

/-- A raw descriptor whose numeric preference fields are unset. -/
def rawVideoDesc : VideoCand :=
  { id := "rv", url := "u", name := "n", has_audio := false
    width := some 640, height := some 360, language := none
    total_bitrate := none, language_preference := none }

/-- A raw audio descriptor with unset language and numeric fields. -/
def rawAudioDesc : AudioCand :=
  { id := "ra", url := "u", name := "n", author := none, language := none
    total_bitrate := none, language_preference := none }

/-- Audio fixture with (language_preference, bitrate) = (0, 100). -/
def audLp0Br100 : AudioCand :=
  { id := "aud-100", url := "url-100", name := "n1", author := none
    language := none, total_bitrate := some 100, language_preference := some 0 }

/-- Audio fixture with (language_preference, bitrate) = (1, 50). -/
def audLp1Br50 : AudioCand :=
  { id := "aud-50", url := "url-50", name := "n2", author := none
    language := none, total_bitrate := some 50, language_preference := some 1 }

/-- Audio fixture with (language_preference, bitrate) = (1, 80). -/
def audLp1Br80 : AudioCand :=
  { id := "aud-80", url := "url-80", name := "n3", author := none
    language := none, total_bitrate := some 80, language_preference := some 1 }

/-- An image candidate whose width is null. -/
def nullWidthImage : ImageCand :=
  { id := "i0", url := "iu0", name := "n0", width := none, height := none }

/-- An image candidate with an integer width. -/
def normalImage : ImageCand :=
  { id := "i1", url := "iu1", name := "n1", width := some 100, height := some 100 }

/-- Thumbnail stored in the demo session. -/
def demoThumb : ImageCand :=
  { id := "t1", url := "turl", name := "tn", width := some 100, height := some 100 }

/-- Video rendition stored in the demo session. -/
def demoVid : VideoCand :=
  { id := "v1", url := "vurl", name := "vname", has_audio := true
    width := some 640, height := some 360, language := none
    total_bitrate := some 100, language_preference := some 0 }

/-- A small extracted media payload. -/
def demoMedia : MediaData :=
  { url := "https://www.youtube.com/watch", is_video := true, is_image := false
    path := none, title := some "title", author_name := some "author"
    description := none, videos := [demoVid], images := [], audios := []
    thumbnails := [demoThumb] }

/-- A session holding `demoMedia`. -/
def demoSession : SessionData :=
  { url := "https://www.youtube.com/watch", service := "youtube"
    media_data := demoMedia }

/-- Empty worker state: no leases, no cache, no sessions, no messages. -/
def emptyEnv : WorkerEnv :=
  { activity := fun _ => none, cache := fun _ => none
    sessions := fun _ => none, messages := [] }

/-- An extractor error result that still carries its partially filled
`data` object (for example `UNSUPPORTED_CONTENT_TYPE`, youtube.py lines
320-329, raised after `self._data = YoutubeData(url=url)`). -/
def errResultWithData : ServiceResult :=
  { status := "error", context := some "Неподдерживаемый тип контента"
    code := "UNSUPPORTED_CONTENT_TYPE"
    data := some { url := "https://www.youtube.com/watch", is_video := false
                   is_image := false, path := none, title := none
                   author_name := none, description := none, videos := []
                   images := [], audios := [], thumbnails := [] } }

/-- The `INVALID_URL` error result a fresh `YoutubeDownloader` returns for
a non-YouTube url (youtube.py lines 291-300): `data = self._data = None`. -/
def invalidUrlResult : ServiceResult :=
  { status := "error"
    context := some "Неверный или неподдерживаемый URL YouTube"
    code := "INVALID_URL", data := none }

/-! ## Helper lemmas: orders -/

theorem keyLe_refl (a : Int × Int × Int) : keyLe a a := by
  unfold keyLe; omega

theorem keyLe_trans {a b c : Int × Int × Int}
    (h1 : keyLe a b) (h2 : keyLe b c) : keyLe a c := by
  unfold keyLe at h1 h2 ⊢; omega

theorem pairLe_refl (p : Int × Int) : pairLe p p := by
  unfold pairLe; omega

theorem pairLe_trans {p q r : Int × Int} (h1 : pairLe p q) (h2 : pairLe q r) :
    pairLe p r := by
  unfold pairLe at h1 h2 ⊢; omega

theorem pairLt_le {p q : Int × Int} (h : pairLt p q) : pairLe p q := by
  unfold pairLt at h; unfold pairLe; omega

theorem not_pairLt_le {p q : Int × Int} (h : ¬ pairLt p q) : pairLe q p := by
  unfold pairLt at h; unfold pairLe; omega

/-- `normVideo` does not touch the width. -/
theorem normVideo_width (v : VideoCand) : (normVideo v).width = v.width := rfl

/-! ## Helper lemmas: the bucket fold of `parse_videos` -/

theorem mem_map_fst_addToBuckets (acc : List (Int × VideoCand))
    (v : VideoCand) (w : Int) :
    w ∈ (addToBuckets acc v).map Prod.fst ↔
      w ∈ acc.map Prod.fst ∨ (v.width = some w ∧ w ≠ 0) := by
  cases hv : v.width with
  | none => simp [addToBuckets, hv]
  | some w0 =>
    simp only [addToBuckets, hv]
    by_cases h0 : w0 = 0
    · subst h0
      simp only [if_pos rfl]
      constructor
      · exact fun h => Or.inl h
      · rintro (h | ⟨hw, hne⟩)
        · exact h
        · cases hw; omega
    · rw [if_neg h0]
      by_cases hmem : w0 ∈ acc.map Prod.fst
      · rw [if_pos hmem]
        constructor
        · exact fun h => Or.inl h
        · rintro (h | ⟨hw, _⟩)
          · exact h
          · cases hw; exact hmem
      · rw [if_neg hmem]
        simp only [List.map_append, List.map_cons, List.map_nil,
          List.mem_append, List.mem_cons, List.not_mem_nil, or_false]
        constructor
        · rintro (h | h)
          · exact Or.inl h
          · exact Or.inr ⟨by rw [h], by omega⟩
        · rintro (h | ⟨hw, hne⟩)
          · exact Or.inl h
          · cases hw; exact Or.inr rfl

theorem mem_addToBuckets {acc : List (Int × VideoCand)} {v : VideoCand}
    {p : Int × VideoCand} (h : p ∈ addToBuckets acc v) :
    p ∈ acc ∨ (v.width = some p.1 ∧ p.1 ≠ 0 ∧ p.2 = v ∧
               p.1 ∉ acc.map Prod.fst) := by
  cases hv : v.width with
  | none => simp only [addToBuckets, hv] at h; exact Or.inl h
  | some w0 =>
    simp only [addToBuckets, hv] at h
    by_cases h0 : w0 = 0
    · rw [if_pos h0] at h; exact Or.inl h
    · rw [if_neg h0] at h
      by_cases hmem : w0 ∈ acc.map Prod.fst
      · rw [if_pos hmem] at h; exact Or.inl h
      · rw [if_neg hmem] at h
        rcases List.mem_append.mp h with h' | h'
        · exact Or.inl h'
        · rcases List.mem_singleton.mp h' with rfl
          exact Or.inr ⟨rfl, h0, rfl, hmem⟩

theorem foldl_buckets_keys (l : List VideoCand) :
    ∀ (acc : List (Int × VideoCand)) (w : Int),
      w ∈ (l.foldl addToBuckets acc).map Prod.fst ↔
        w ∈ acc.map Prod.fst ∨ ∃ v ∈ l, v.width = some w ∧ w ≠ 0 := by
  induction l with
  | nil => intro acc w; simp
  | cons x xs ih =>
    intro acc w
    rw [List.foldl_cons, ih, mem_map_fst_addToBuckets]
    constructor
    · rintro ((h | ⟨hw, hne⟩) | ⟨v, hv, hw, hne⟩)
      · exact Or.inl h
      · exact Or.inr ⟨x, List.mem_cons_self x xs, hw, hne⟩
      · exact Or.inr ⟨v, List.mem_cons_of_mem x hv, hw, hne⟩
    · rintro (h | ⟨v, hv, hw, hne⟩)
      · exact Or.inl (Or.inl h)
      · rcases List.mem_cons.mp hv with rfl | hv'
        · exact Or.inl (Or.inr ⟨hw, hne⟩)
        · exact Or.inr ⟨v, hv', hw, hne⟩

theorem foldl_buckets_shape (l : List VideoCand) :
    ∀ (acc : List (Int × VideoCand)),
      (∀ p ∈ acc, p.2.width = some p.1 ∧ p.1 ≠ 0) →
      ∀ p ∈ l.foldl addToBuckets acc, p.2.width = some p.1 ∧ p.1 ≠ 0 := by
  induction l with
  | nil => intro acc hacc p hp; exact hacc p hp
  | cons x xs ih =>
    intro acc hacc p hp
    refine ih (addToBuckets acc x) ?_ p hp
    intro q hq
    rcases mem_addToBuckets hq with h | ⟨hw, hne, hq2, _⟩
    · exact hacc q h
    · exact ⟨by rw [hq2, hw], hne⟩

theorem foldl_buckets_src (l : List VideoCand) :
    ∀ (acc : List (Int × VideoCand)) (p : Int × VideoCand),
      p ∈ l.foldl addToBuckets acc → p ∈ acc ∨ p.2 ∈ l := by
  induction l with
  | nil => intro acc p hp; exact Or.inl hp
  | cons x xs ih =>
    intro acc p hp
    rcases ih (addToBuckets acc x) p hp with h | h
    · rcases mem_addToBuckets h with h' | ⟨_, _, hp2, _⟩
      · exact Or.inl h'
      · exact Or.inr (by rw [hp2]; exact List.mem_cons_self x xs)
    · exact Or.inr (List.mem_cons_of_mem x h)

theorem foldl_buckets_nodup (l : List VideoCand) :
    ∀ (acc : List (Int × VideoCand)),
      (acc.map Prod.fst).Nodup → ((l.foldl addToBuckets acc).map Prod.fst).Nodup := by
  induction l with
  | nil => intro acc h; exact h
  | cons x xs ih =>
    intro acc hacc
    refine ih (addToBuckets acc x) ?_
    cases hv : x.width with
    | none => simpa only [addToBuckets, hv] using hacc
    | some w0 =>
      simp only [addToBuckets, hv]
      by_cases h0 : w0 = 0
      · rw [if_pos h0]; exact hacc
      · rw [if_neg h0]
        by_cases hmem : w0 ∈ acc.map Prod.fst
        · rw [if_pos hmem]; exact hacc
        · rw [if_neg hmem]
          rw [List.map_append]
          simp only [List.map_cons, List.map_nil]
          exact List.nodup_append.mpr ⟨hacc, List.nodup_singleton w0,
            by simpa using fun h => hmem h⟩

theorem foldl_buckets_key_mem (l : List VideoCand) :
    ∀ (acc : List (Int × VideoCand)) (p : Int × VideoCand),
      p ∈ l.foldl addToBuckets acc → p.1 ∈ acc.map Prod.fst → p ∈ acc := by
  induction l with
  | nil => intro acc p hp _; exact hp
  | cons x xs ih =>
    intro acc p hp hkey
    have hkey' : p.1 ∈ (addToBuckets acc x).map Prod.fst :=
      (mem_map_fst_addToBuckets acc x p.1).mpr (Or.inl hkey)
    rcases mem_addToBuckets (ih (addToBuckets acc x) p hp hkey') with h | ⟨_, _, _, hnot⟩
    · exact h
    · exact absurd hkey hnot

theorem foldl_buckets_max (l : List VideoCand) :
    ∀ (acc : List (Int × VideoCand)),
      l.Pairwise videoGe →
      (∀ p ∈ acc, p.2.width = some p.1 ∧ p.1 ≠ 0) →
      (∀ p ∈ acc, ∀ u ∈ l, u.width = some p.1 → videoGe p.2 u) →
      ∀ p ∈ l.foldl addToBuckets acc, ∀ u ∈ l, u.width = some p.1 → videoGe p.2 u := by
  induction l with
  | nil => intro acc _ _ _ p _ u hu; exact absurd hu (List.not_mem_nil u)
  | cons x xs ih =>
    intro acc hpair hshape hacc p hp u hu hw
    have hx : ∀ u ∈ xs, videoGe x u := (List.pairwise_cons.mp hpair).1
    have hpair' : xs.Pairwise videoGe := (List.pairwise_cons.mp hpair).2
    have hshape' : ∀ q ∈ addToBuckets acc x, q.2.width = some q.1 ∧ q.1 ≠ 0 := by
      intro q hq
      rcases mem_addToBuckets hq with h | ⟨hw', hne, hq2, _⟩
      · exact hshape q h
      · exact ⟨by rw [hq2, hw'], hne⟩
    have hacc' : ∀ q ∈ addToBuckets acc x, ∀ u ∈ xs, u.width = some q.1 → videoGe q.2 u := by
      intro q hq u' hu' hw'
      rcases mem_addToBuckets hq with h | ⟨_, _, hq2, _⟩
      · exact hacc q h u' (List.mem_cons_of_mem x hu') hw'
      · rw [hq2]; exact hx u' hu'
    rcases List.mem_cons.mp hu with rfl | hu'
    · -- u is the head: p is either an old bucket entry, or its key is
      -- already present after processing the head, hence p was present
      -- already.
      by_cases hpacc : p ∈ addToBuckets acc u
      · rcases mem_addToBuckets hpacc with h | ⟨_, _, hp2, _⟩
        · exact hacc p h u (List.mem_cons_self u xs) hw
        · rw [hp2]; exact keyLe_refl (videoKey u)
      · exfalso
        have hne : p.1 ≠ 0 := (foldl_buckets_shape xs (addToBuckets acc u) hshape' p hp).2
        have hkey : p.1 ∈ (addToBuckets acc u).map Prod.fst :=
          (mem_map_fst_addToBuckets acc u p.1).mpr (Or.inr ⟨hw, hne⟩)
        exact hpacc (foldl_buckets_key_mem xs (addToBuckets acc u) p hp hkey)
    · exact ih (addToBuckets acc x) hpair' hshape' hacc' p hp u hu' hw

/-! ## Claim C3 -/

/-- Claim C3 counterexample: the claim promises exactly one button per
distinct non-null width, but the grouping condition `if width:` treats the
non-null width `0` as falsy, so a list whose only candidate has width `0`
yields no button at all. -/
theorem parse_videos_zero_width_dropped :
    zeroWidthVideo.width = some 0 ∧
    MediaProcessor.parse_videos [zeroWidthVideo] = [] :=
  ⟨rfl, rfl⟩

/-- Claim C3 (amended): for every list of video candidates the bucketing
produces exactly one bucket per distinct non-null **non-zero** width, the
bucket keys are strictly decreasing (buttons from highest width to lowest),
each bucket holds a normalized input candidate of that width whose sort key
`(hasAudioTrack, languagePreference, bitrate)` — missing values 0 — is
maximal among the candidates of that width, the button list is the
rendering of these buckets with the generic Video label when only a single
bucket exists; and of two candidates with equal width, one with audio and
bitrate 500 and one without audio and bitrate 900, the audio-bearing one is
chosen. -/
theorem parse_videos_bucketing :
    (∀ videos : List VideoCand,
      ((videoBucketsOrdered videos).map Prod.fst).Pairwise (fun a b => b < a) ∧
      (∀ w : Int, w ∈ (videoBucketsOrdered videos).map Prod.fst ↔
          (w ≠ 0 ∧ ∃ v ∈ videos, v.width = some w)) ∧
      (∀ p ∈ videoBucketsOrdered videos,
          p.2.width = some p.1 ∧ p.2 ∈ videos.map normVideo ∧
          ∀ u ∈ videos.map normVideo, u.width = some p.1 →
            keyLe (videoKey u) (videoKey p.2)) ∧
      (MediaProcessor.parse_videos videos =
        match videoBucketsOrdered videos with
        | [p] => [videoButtonSingle p.2]
        | l => l.map videoButtonMulti)) ∧
    MediaProcessor.parse_videos [tieNoAudio, tieWithAudio] =
      [{ row := 1, label := "🎬 Video + Audio"
         callback_data := "video:vid-500", url := none }] := by
  constructor
  · intro videos
    have hS_sorted : (sortVideosDesc (videos.map normVideo)).Pairwise videoGe :=
      List.sorted_insertionSort videoGe (videos.map normVideo)
    have hS_perm : (sortVideosDesc (videos.map normVideo)).Perm (videos.map normVideo) :=
      List.perm_insertionSort videoGe (videos.map normVideo)
    have hB_perm : (videoBucketsOrdered videos).Perm (videoBuckets videos) :=
      List.perm_insertionSort bucketGe (videoBuckets videos)
    have hB_sorted : (videoBucketsOrdered videos).Pairwise bucketGe :=
      List.sorted_insertionSort bucketGe (videoBuckets videos)
    have hBK : videoBuckets videos =
        (sortVideosDesc (videos.map normVideo)).foldl addToBuckets [] := rfl
    refine ⟨?_, ?_, ?_, ?_⟩
    · -- strictly decreasing bucket keys
      have hnodupBK : ((videoBuckets videos).map Prod.fst).Nodup := by
        rw [hBK]
        exact foldl_buckets_nodup _ [] (by simp)
      have hnodupB : (((videoBucketsOrdered videos)).map Prod.fst).Nodup :=
        ((hB_perm.map Prod.fst).nodup_iff).mpr hnodupBK
      have hne : (videoBucketsOrdered videos).Pairwise (fun p q => p.1 ≠ q.1) :=
        List.pairwise_map.mp hnodupB
      have hlt : (videoBucketsOrdered videos).Pairwise (fun p q => q.1 < p.1) :=
        (hB_sorted.and hne).imp (fun h => lt_of_le_of_ne h.1 (Ne.symm h.2))
      exact List.pairwise_map.mpr hlt
    · -- bucket keys are exactly the distinct truthy widths
      intro w
      rw [List.Perm.mem_iff (hB_perm.map Prod.fst), hBK,
        foldl_buckets_keys _ [] w]
      simp only [List.map_nil, List.not_mem_nil, false_or]
      constructor
      · rintro ⟨v, hv, hw, hne⟩
        have hv' : v ∈ videos.map normVideo := hS_perm.mem_iff.mp hv
        rcases List.mem_map.mp hv' with ⟨v0, hv0, rfl⟩
        exact ⟨hne, v0, hv0, by rw [← normVideo_width]; exact hw⟩
      · rintro ⟨hne, v0, hv0, hw⟩
        refine ⟨normVideo v0, hS_perm.mem_iff.mpr (List.mem_map.mpr ⟨v0, hv0, rfl⟩),
          by rw [normVideo_width]; exact hw, hne⟩
    · -- each bucket entry is a maximal normalized candidate of its width
      intro p hp
      have hp' : p ∈ videoBuckets videos := hB_perm.mem_iff.mp hp
      rw [hBK] at hp'
      have hshape := foldl_buckets_shape _ [] (by simp) p hp'
      have hsrc := foldl_buckets_src _ [] p hp'
      have hmax := foldl_buckets_max _ [] hS_sorted (by simp) (by simp) p hp'
      refine ⟨hshape.1, ?_, ?_⟩
      · rcases hsrc with h | h
        · exact absurd h (List.not_mem_nil p)
        · exact hS_perm.mem_iff.mp h
      · intro u hu hw
        exact hmax u (hS_perm.mem_iff.mpr hu) hw
    · -- rendering
      cases videos with
      | nil => rfl
      | cons a l => rfl
  · rfl

/-- Claim C3 witness: the amended theorem applied to the tie fixture. -/
theorem parse_videos_bucketing_check :
    (640 : Int) ∈ (videoBucketsOrdered [tieNoAudio, tieWithAudio]).map Prod.fst :=
  ((parse_videos_bucketing.1 [tieNoAudio, tieWithAudio]).2.1 640).mpr
    ⟨by decide, tieNoAudio, by decide, rfl⟩

/-! ## Claim C4 -/

theorem py_max_audio_mem (rest : List AudioCand) :
    ∀ best, py_max_audio best rest ∈ best :: rest := by
  induction rest with
  | nil => intro best; simp [py_max_audio]
  | cons a as ih =>
    intro best
    rw [py_max_audio]
    by_cases h : pairLt (audioKey best) (audioKey a)
    · rw [if_pos h]
      rcases List.mem_cons.mp (ih a) with h' | h'
      · rw [h']; simp
      · exact List.mem_cons_of_mem _ (List.mem_cons_of_mem _ h')
    · rw [if_neg h]
      rcases List.mem_cons.mp (ih best) with h' | h'
      · rw [h']; simp
      · exact List.mem_cons_of_mem _ (List.mem_cons_of_mem _ h')

theorem py_max_audio_ge (rest : List AudioCand) :
    ∀ best, pairLe (audioKey best) (audioKey (py_max_audio best rest)) ∧
      ∀ u ∈ rest, pairLe (audioKey u) (audioKey (py_max_audio best rest)) := by
  induction rest with
  | nil =>
    intro best
    exact ⟨pairLe_refl _, fun u hu => absurd hu (List.not_mem_nil u)⟩
  | cons a as ih =>
    intro best
    rw [py_max_audio]
    by_cases h : pairLt (audioKey best) (audioKey a)
    · rw [if_pos h]
      refine ⟨pairLe_trans (pairLt_le h) (ih a).1, ?_⟩
      intro u hu
      rcases List.mem_cons.mp hu with rfl | hu'
      · exact (ih u).1
      · exact (ih a).2 u hu'
    · rw [if_neg h]
      refine ⟨(ih best).1, ?_⟩
      intro u hu
      rcases List.mem_cons.mp hu with rfl | hu'
      · exact pairLe_trans (not_pairLt_le h) (ih best).1
      · exact (ih best).2 u hu'

/-- Claim C4: for every non-empty audio candidate list, `parse_audios`
surfaces exactly one button, built from a normalized input candidate whose
pair (languagePreference, bitrate) — missing values 0 — is maximal in the
lexicographic order; and among candidates with pairs (0,100), (1,50), (1,80)
the (1,80) one is picked. -/
theorem parse_audios_picks_best :
    (∀ audios : List AudioCand, audios ≠ [] →
      ∃ best ∈ audios.map normAudio,
        MediaProcessor.parse_audios audios =
          some { row := 2, label := "🎵 Audio"
                 callback_data := "audio:" ++ best.id, url := some best.url } ∧
        ∀ u ∈ audios.map normAudio, pairLe (audioKey u) (audioKey best)) ∧
    MediaProcessor.parse_audios [audLp0Br100, audLp1Br50, audLp1Br80] =
      some { row := 2, label := "🎵 Audio"
             callback_data := "audio:aud-80", url := some "url-80" } := by
  constructor
  · intro audios hne
    cases audios with
    | nil => exact absurd rfl hne
    | cons a rest =>
      refine ⟨py_max_audio (normAudio a) (rest.map normAudio), ?_, rfl, ?_⟩
      · rw [List.map_cons]
        exact py_max_audio_mem (rest.map normAudio) (normAudio a)
      · intro u hu
        rw [List.map_cons] at hu
        rcases List.mem_cons.mp hu with rfl | hu'
        · exact (py_max_audio_ge (rest.map normAudio) (normAudio a)).1
        · exact (py_max_audio_ge (rest.map normAudio) (normAudio a)).2 u hu'
  · rfl

/-- Claim C4 witness: the theorem applied to the three-candidate fixture. -/
theorem parse_audios_picks_best_check :
    (MediaProcessor.parse_audios [audLp0Br100, audLp1Br50, audLp1Br80]).isSome := by
  obtain ⟨b, _, heq, _⟩ :=
    parse_audios_picks_best.1 [audLp0Br100, audLp1Br50, audLp1Br80] (by decide)
  rw [heq]; rfl

/-! ## Claim C9 -/

/-- Claim C9 counterexample: the selectors are not pure readers of their
input descriptors — the in-place normalization step rewrites them.  A video
descriptor whose `language_preference` is unset, and an audio descriptor
whose `language` is unset, both come back changed. -/
theorem parse_normalization_mutates :
    parse_videos_effect [rawVideoDesc] ≠ [rawVideoDesc] ∧
    parse_audios_effect [rawAudioDesc] ≠ [rawAudioDesc] := by
  refine ⟨?_, ?_⟩ <;> decide

/-- Claim C9 (amended): the selectors are deterministic, but they normalize
their input descriptors in place; the mutation is confined to `language`
(lower-cased and stripped, audio `None` becoming the empty string),
`language_preference` and `total_bitrate` (defaulted to 0) — identity, url,
name, audio flag and geometry are never written. -/
theorem parse_normalization_scope :
    ∀ (v : VideoCand) (a : AudioCand),
      parse_videos_effect [v] = [normVideo v] ∧
      parse_audios_effect [a] = [normAudio a] ∧
      (normVideo v).id = v.id ∧ (normVideo v).url = v.url ∧
      (normVideo v).name = v.name ∧ (normVideo v).has_audio = v.has_audio ∧
      (normVideo v).width = v.width ∧ (normVideo v).height = v.height ∧
      (normVideo v).language_preference = some (v.language_preference.getD 0) ∧
      (normVideo v).total_bitrate = some (v.total_bitrate.getD 0) ∧
      (normAudio a).id = a.id ∧ (normAudio a).url = a.url ∧
      (normAudio a).name = a.name ∧ (normAudio a).author = a.author ∧
      (normAudio a).language = some ((a.language.getD "").toLower.trim) ∧
      (normAudio a).language_preference = some (a.language_preference.getD 0) ∧
      (normAudio a).total_bitrate = some (a.total_bitrate.getD 0) :=
  fun _ _ => ⟨rfl, rfl, rfl, rfl, rfl, rfl, rfl, rfl, rfl, rfl, rfl, rfl,
    rfl, rfl, rfl, rfl, rfl⟩

/-! ## Claim C8 -/

/-- Claim C8: empty candidate collections yield no button for any media
kind without error, and a **video** candidate with a null width is silently
excluded; but for **image** candidates the claim fails: a null-width image
is grouped rather than excluded, and as soon as a null width coexists with
an integer one, `max(images_by_width.keys())` raises `TypeError`. -/
theorem parse_images_null_width_crashes :
    MediaProcessor.parse_videos [] = [] ∧
    MediaProcessor.parse_audios [] = none ∧
    MediaProcessor.parse_thumbnails [] = none ∧
    MediaProcessor.parse_images [] = Except.ok none ∧
    MediaProcessor.parse_videos [nullWidthVideo] = [] ∧
    MediaProcessor.parse_images [nullWidthImage, normalImage] =
      Except.error "TypeError" :=
  ⟨rfl, rfl, rfl, rfl, rfl, rfl⟩

/-! ## Claim C5 -/

/-- Claim C5: the handlers do look a rendition id up only inside the
fetched session's own collections, and an absent session gets the
"resend the link" alert; but a stale id inside a valid session does
**not** get the same alert — the lookup `[...][0]` raises `IndexError`
(the session holds exactly the ids `v1` and `t1`; the callbacks reference
`zz`).  A matching id still works, for contrast. -/
theorem stale_rendition_id_raises :
    ServiceCallbackHandler.handle_thumbnail (some demoSession) "thumbnail:zz" =
      Except.error "IndexError" ∧
    ServiceCallbackHandler.handle_thumbnail none "thumbnail:zz" =
      Except.ok ThumbReply.resendAlert ∧
    ServiceCallbackHandler.handle_video false (some demoSession) "video:zz" =
      Except.error "IndexError" ∧
    ServiceCallbackHandler.handle_video false none "video:zz" =
      Except.ok VideoReply.resendAlert ∧
    ServiceCallbackHandler.handle_thumbnail (some demoSession) "thumbnail:t1" =
      Except.ok (ThumbReply.photoSent "turl") ∧
    ServiceCallbackHandler.handle_video false (some demoSession) "video:v1" =
      Except.ok (VideoReply.dispatched "vname") :=
  ⟨rfl, rfl, rfl, rfl, rfl, rfl⟩

/-! ## Claim C10 -/

/-- Claim C10: `to_dict` raises `AttributeError` exactly when the result's
`data` is absent, and succeeds with the full record when it is present;
the `EMPTY_URL` / `INVALID_URL` error paths of `extract_info` on a fresh
downloader produce exactly such data-absent results. -/
theorem result_to_dict_requires_data :
    (∀ r : ServiceResult, r.data = none →
      r.to_dict = Except.error "AttributeError") ∧
    (∀ (r : ServiceResult) (d : MediaData), r.data = some d →
      r.to_dict = Except.ok ⟨r.status, r.context, r.code, d⟩) ∧
    (∀ (url : String) (r : ServiceResult),
      YoutubeDownloader.extract_info_early url = some r →
        r.status = "error" ∧ r.data = none ∧
        r.to_dict = Except.error "AttributeError") := by
  refine ⟨?_, ?_, ?_⟩
  · intro r h
    unfold ServiceResult.to_dict
    rw [h]
  · intro r d h
    unfold ServiceResult.to_dict
    rw [h]
  · intro url r h
    unfold YoutubeDownloader.extract_info_early at h
    split_ifs at h with h1 h2
    · cases h; exact ⟨rfl, rfl, rfl⟩
    · cases h; exact ⟨rfl, rfl, rfl⟩

/-- Claim C10 witness: applied to the `EMPTY_URL` result of
`extract_info("")` on a fresh downloader. -/
theorem result_to_dict_requires_data_check :
    ServiceResult.to_dict
      { status := "error", context := some "Предоставлен неверный URL"
        code := "EMPTY_URL", data := none } = Except.error "AttributeError" :=
  result_to_dict_requires_data.1 _ rfl

/-! ## Helper lemmas: the TTL key-value store -/

theorem kvLive_set_eq {K V : Type} [DecidableEq K] (st : KV K V) (k : K)
    (v : V) (e now : Nat) :
    kvLive (kvSet st k v e) now k = if now < e then some v else none := by
  unfold kvLive kvSet; simp

theorem kvLive_set_ne {K V : Type} [DecidableEq K] (st : KV K V) (k q : K)
    (v : V) (e now : Nat) (h : q ≠ k) :
    kvLive (kvSet st k v e) now q = kvLive st now q := by
  unfold kvLive kvSet; simp [h]

theorem kvSet_ne {K V : Type} [DecidableEq K] (st : KV K V) (k q : K)
    (v : V) (e : Nat) (h : q ≠ k) : kvSet st k v e q = st q := by
  unfold kvSet; simp [h]

theorem kvLive_del_eq {K V : Type} [DecidableEq K] (st : KV K V) (k : K)
    (now : Nat) : kvLive (kvDel st k) now k = none := by
  unfold kvLive kvDel; simp

theorem kvGetRefresh_of_live {K V : Type} [DecidableEq K] {st : KV K V}
    {now : Nat} {k : K} {v : V} (ttl : Nat) (h : kvLive st now k = some v) :
    kvGetRefresh ttl st now k = (some v, kvSet st k v (now + ttl)) := by
  unfold kvGetRefresh; rw [h]

theorem kvGetRefresh_of_dead {K V : Type} [DecidableEq K] {st : KV K V}
    {now : Nat} {k : K} (ttl : Nat) (h : kvLive st now k = none) :
    kvGetRefresh ttl st now k = (none, st) := by
  unfold kvGetRefresh; rw [h]

/-! ## Claim C6 -/

/-- Claim C6: fetching the media cache immediately after storing a media
result under a URL returns the stored record, and fetching once the TTL
has elapsed returns absent — an `Option`, never an error. -/
theorem media_cache_roundtrip :
    ∀ (ttl : Nat) (st : KV String CacheEntry) (now : Nat) (url : String)
      (m : MediaData), 0 < ttl →
      (MediaCacheStorage.get_media ttl
        (MediaCacheStorage.store_media ttl st now url m) now url).1 =
        some ⟨url, m⟩ ∧
      (∀ t, now + ttl ≤ t →
        (MediaCacheStorage.get_media ttl
          (MediaCacheStorage.store_media ttl st now url m) t url).1 = none) := by
  intro ttl st now url m httl
  unfold MediaCacheStorage.get_media MediaCacheStorage.store_media
  constructor
  · have h : kvLive (kvSet st url ⟨url, m⟩ (now + ttl)) now url = some ⟨url, m⟩ := by
      rw [kvLive_set_eq, if_pos (by omega)]
    rw [kvGetRefresh_of_live ttl h]
  · intro t ht
    have h : kvLive (kvSet st url ⟨url, m⟩ (now + ttl)) t url = none := by
      rw [kvLive_set_eq, if_neg (by omega)]
    rw [kvGetRefresh_of_dead ttl h]

/-- Claim C6 witness: the theorem applied to an empty store, `ttl = 86400`
(the default), time 0. -/
theorem media_cache_roundtrip_check :
    (MediaCacheStorage.get_media 86400
      (MediaCacheStorage.store_media 86400 (fun _ => none) 0
        "https://www.youtube.com/watch" demoMedia) 0
      "https://www.youtube.com/watch").1 =
      some ⟨"https://www.youtube.com/watch", demoMedia⟩ :=
  (media_cache_roundtrip 86400 (fun _ => none) 0
    "https://www.youtube.com/watch" demoMedia (by decide)).1

/-! ## Claim C7 -/

/-- Claim C7: a successful `get` re-arms the TTL to the full duration —
a session created at `now` and read at `t1` (within its window) is still
readable at `t2 < t1 + ttl` even when `t2` lies past the original expiry
`now + ttl`; an entry that is never read is absent from `now + ttl` on.
The media cache read path re-arms identically. -/
theorem ttl_refresh_on_get :
    ∀ (ttl : Nat) (sess : KV Int SessionData) (cst : KV String CacheEntry)
      (now t1 t2 : Nat) (chat : Int) (url service : String) (m : MediaData),
      t1 < now + ttl → t2 < t1 + ttl → now + ttl ≤ t2 →
      ((UserSessionStorage.get_session ttl
          (UserSessionStorage.create_session ttl sess now chat url service m)
          t1 chat).1 = some ⟨url, service, m⟩ ∧
       (UserSessionStorage.get_session ttl
          (UserSessionStorage.get_session ttl
            (UserSessionStorage.create_session ttl sess now chat url service m)
            t1 chat).2 t2 chat).1 = some ⟨url, service, m⟩) ∧
      (∀ t, now + ttl ≤ t →
        (UserSessionStorage.get_session ttl
          (UserSessionStorage.create_session ttl sess now chat url service m)
          t chat).1 = none) ∧
      (MediaCacheStorage.get_media ttl
        (MediaCacheStorage.get_media ttl
          (MediaCacheStorage.store_media ttl cst now url m) t1 url).2
        t2 url).1 = some ⟨url, m⟩ := by
  intro ttl sess cst now t1 t2 chat url service m h1 h2 h3
  have hs1 : kvLive (kvSet sess chat (⟨url, service, m⟩ : SessionData)
      (now + ttl)) t1 chat = some ⟨url, service, m⟩ := by
    rw [kvLive_set_eq, if_pos h1]
  have hs2 : kvLive (kvSet (kvSet sess chat (⟨url, service, m⟩ : SessionData)
      (now + ttl)) chat (⟨url, service, m⟩ : SessionData) (t1 + ttl)) t2 chat =
      some ⟨url, service, m⟩ := by
    rw [kvLive_set_eq, if_pos h2]
  have hc1 : kvLive (kvSet cst url (⟨url, m⟩ : CacheEntry) (now + ttl)) t1 url =
      some ⟨url, m⟩ := by
    rw [kvLive_set_eq, if_pos h1]
  have hc2 : kvLive (kvSet (kvSet cst url (⟨url, m⟩ : CacheEntry) (now + ttl))
      url (⟨url, m⟩ : CacheEntry) (t1 + ttl)) t2 url = some ⟨url, m⟩ := by
    rw [kvLive_set_eq, if_pos h2]
  unfold UserSessionStorage.get_session UserSessionStorage.create_session
    MediaCacheStorage.get_media MediaCacheStorage.store_media
  refine ⟨⟨?_, ?_⟩, ?_, ?_⟩
  · rw [kvGetRefresh_of_live ttl hs1]
  · rw [kvGetRefresh_of_live ttl hs1, kvGetRefresh_of_live ttl hs2]
  · intro t ht
    have h : kvLive (kvSet sess chat (⟨url, service, m⟩ : SessionData)
        (now + ttl)) t chat = none := by
      rw [kvLive_set_eq, if_neg (by omega)]
    rw [kvGetRefresh_of_dead ttl h]
  · rw [kvGetRefresh_of_live ttl hc1, kvGetRefresh_of_live ttl hc2]

/-- Claim C7 witness: ttl 7200 (the session default), created at 0, read at
7000, read again at 14000 — past the original expiry 7200 — still a hit. -/
theorem ttl_refresh_on_get_check :
    (UserSessionStorage.get_session 7200
      (UserSessionStorage.get_session 7200
        (UserSessionStorage.create_session 7200 (fun _ => none) 0 9
          "https://www.youtube.com/watch" "youtube" demoMedia) 7000 9).2
      14000 9).1 = some ⟨"https://www.youtube.com/watch", "youtube", demoMedia⟩ :=
  ((ttl_refresh_on_get 7200 (fun _ => none) (fun _ => none) 0 7000 14000 9
    "https://www.youtube.com/watch" "youtube" demoMedia
    (by decide) (by decide) (by decide)).1).2

/-! ## Claim C2 -/

/-- Claim C2: per chat and per lease kind, the admission prefix of the
handlers is single-flight.  While an extract lease is live, a second
attempt reports busy, writes no new lease (the existing lease keeps its
value, only its TTL is refreshed) and touches no other key; with no live
lease the attempt starts and writes the lease; after an explicit release
the next attempt starts again; an attempt inside the TTL window opened by
a successful acquisition is rejected.  The download admission of the
callback handler behaves the same on its own, independent key. -/
theorem lease_single_flight :
    (∀ (ttl : Nat) (st : LeaseKV) (now : Nat) (chat : Int)
       (url service : String) (lease : LeaseData), 0 < ttl →
      kvLive st now (LeaseKind.extract, chat) = some lease →
        (extract_admission ttl st now chat url service).1 = .busy ∧
        kvLive (extract_admission ttl st now chat url service).2 now
          (LeaseKind.extract, chat) = some lease ∧
        (∀ k, k ≠ (LeaseKind.extract, chat) →
          (extract_admission ttl st now chat url service).2 k = st k)) ∧
    (∀ (ttl : Nat) (st : LeaseKV) (now : Nat) (chat : Int)
       (url service : String), 0 < ttl →
      kvLive st now (LeaseKind.extract, chat) = none →
        (extract_admission ttl st now chat url service).1 = .started ∧
        kvLive (extract_admission ttl st now chat url service).2 now
          (LeaseKind.extract, chat) = some ⟨url, service⟩ ∧
        (∀ k, k ≠ (LeaseKind.extract, chat) →
          (extract_admission ttl st now chat url service).2 k = st k)) ∧
    (∀ (ttl : Nat) (st : LeaseKV) (now : Nat) (chat : Int)
       (url service : String),
      (extract_admission ttl
        (UserActivityQueue.delete_task st now .extract chat).2
        now chat url service).1 = .started) ∧
    (∀ (ttl : Nat) (st : LeaseKV) (now t : Nat) (chat : Int)
       (url service url2 service2 : String),
      kvLive st now (LeaseKind.extract, chat) = none → now ≤ t → t < now + ttl →
      (extract_admission ttl
        (extract_admission ttl st now chat url service).2
        t chat url2 service2).1 = .busy) ∧
    (∀ (ttl : Nat) (st : LeaseKV) (now : Nat) (chat : Int)
       (session : Option SessionData) (lease : LeaseData),
      kvLive st now (LeaseKind.download, chat) = some lease →
        (download_admission ttl st now chat session).1 = .busy ∧
        (∀ k, k ≠ (LeaseKind.download, chat) →
          (download_admission ttl st now chat session).2 k = st k)) ∧
    (∀ (ttl : Nat) (st : LeaseKV) (now : Nat) (chat : Int)
       (s : SessionData), 0 < ttl →
      kvLive st now (LeaseKind.download, chat) = none →
        (download_admission ttl st now chat (some s)).1 = .started ∧
        kvLive (download_admission ttl st now chat (some s)).2 now
          (LeaseKind.download, chat) = some ⟨s.url, s.service⟩) := by
  refine ⟨?_, ?_, ?_, ?_, ?_, ?_⟩
  · intro ttl st now chat url service lease httl h
    have hg : UserActivityQueue.get_task ttl st now .extract chat =
        (some lease, kvSet st (LeaseKind.extract, chat) lease (now + ttl)) := by
      unfold UserActivityQueue.get_task
      exact kvGetRefresh_of_live ttl h
    unfold extract_admission
    rw [hg]
    refine ⟨rfl, ?_, ?_⟩
    · rw [kvLive_set_eq, if_pos (by omega)]
    · intro k hk
      exact kvSet_ne st _ k lease (now + ttl) hk
  · intro ttl st now chat url service httl h
    have hg : UserActivityQueue.get_task ttl st now .extract chat = (none, st) := by
      unfold UserActivityQueue.get_task
      exact kvGetRefresh_of_dead ttl h
    unfold extract_admission
    rw [hg]
    refine ⟨rfl, ?_, ?_⟩
    · unfold UserActivityQueue.create_task
      rw [kvLive_set_eq, if_pos (by omega)]
    · intro k hk
      unfold UserActivityQueue.create_task
      exact kvSet_ne st _ k ⟨url, service⟩ (now + ttl) hk
  · intro ttl st now chat url service
    have h : kvLive (UserActivityQueue.delete_task st now .extract chat).2 now
        (LeaseKind.extract, chat) = none := by
      unfold UserActivityQueue.delete_task
      exact kvLive_del_eq st _ now
    have hg : UserActivityQueue.get_task ttl
        (UserActivityQueue.delete_task st now .extract chat).2 now .extract chat =
        (none, (UserActivityQueue.delete_task st now .extract chat).2) := by
      unfold UserActivityQueue.get_task
      exact kvGetRefresh_of_dead ttl h
    unfold extract_admission
    rw [hg]
  · intro ttl st now t chat url service url2 service2 h hle hlt
    have hg : UserActivityQueue.get_task ttl st now .extract chat = (none, st) := by
      unfold UserActivityQueue.get_task
      exact kvGetRefresh_of_dead ttl h
    have hstate : (extract_admission ttl st now chat url service).2 =
        kvSet st (LeaseKind.extract, chat) ⟨url, service⟩ (now + ttl) := by
      unfold extract_admission
      rw [hg]
      rfl
    have hlive : kvLive (extract_admission ttl st now chat url service).2 t
        (LeaseKind.extract, chat) = some ⟨url, service⟩ := by
      rw [hstate, kvLive_set_eq, if_pos hlt]
    have hg2 : UserActivityQueue.get_task ttl
        (extract_admission ttl st now chat url service).2 t .extract chat =
        (some ⟨url, service⟩,
         kvSet (extract_admission ttl st now chat url service).2
           (LeaseKind.extract, chat) ⟨url, service⟩ (t + ttl)) := by
      unfold UserActivityQueue.get_task
      exact kvGetRefresh_of_live ttl hlive
    show (match UserActivityQueue.get_task ttl
        (extract_admission ttl st now chat url service).2 t .extract chat with
      | (some _, st1) => (AdmissionOutcome.busy, st1)
      | (none, st1) =>
        (AdmissionOutcome.started,
         UserActivityQueue.create_task ttl st1 t .extract chat url2 service2)).1 =
      AdmissionOutcome.busy
    rw [hg2]
  · intro ttl st now chat session lease h
    have hg : UserActivityQueue.get_task ttl st now .download chat =
        (some lease, kvSet st (LeaseKind.download, chat) lease (now + ttl)) := by
      unfold UserActivityQueue.get_task
      exact kvGetRefresh_of_live ttl h
    unfold download_admission
    rw [hg]
    refine ⟨rfl, ?_⟩
    intro k hk
    exact kvSet_ne st _ k lease (now + ttl) hk
  · intro ttl st now chat s httl h
    have hg : UserActivityQueue.get_task ttl st now .download chat = (none, st) := by
      unfold UserActivityQueue.get_task
      exact kvGetRefresh_of_dead ttl h
    unfold download_admission
    rw [hg]
    refine ⟨rfl, ?_⟩
    unfold UserActivityQueue.create_task
    rw [kvLive_set_eq, if_pos (by omega)]

/-- Claim C2 witness: empty ledger, ttl 7200 — the first acquisition
starts, a retry 100 seconds later is rejected as busy. -/
theorem lease_single_flight_check :
    (extract_admission 7200 (fun _ => none) 0 5 "https://u" "youtube").1 =
      AdmissionOutcome.started ∧
    (extract_admission 7200
      (extract_admission 7200 (fun _ => none) 0 5 "https://u" "youtube").2
      100 5 "https://u" "youtube").1 = AdmissionOutcome.busy :=
  ⟨(lease_single_flight.2.1 7200 (fun _ => none) 0 5 "https://u" "youtube"
      (by decide) rfl).1,
   lease_single_flight.2.2.2.1 7200 (fun _ => none) 0 100 5 "https://u"
     "youtube" "https://u" "youtube" rfl (by decide) (by decide)⟩

/-! ## Claim C1 -/

/-- Claim C1: the claimed propagation policy fails.  `get_media_info` has
no try/except, and for an extractor error result whose `data` is absent —
exactly what a fresh `YoutubeDownloader` returns for an invalid url — the
`.to_dict()` call on line 250 raises `AttributeError`: the exception
escapes the worker, no failure message is delivered, and the extract lease
is never deleted.  For an error result that still carries its `data`
object the claimed behaviour does hold: exactly one failure message, and
the lease is deleted afterwards. -/
theorem get_media_info_error_paths :
    YoutubeDownloader.extract_info_early "https://example.com/x" =
      some invalidUrlResult ∧
    crashMsg (get_media_info 7200 86400 7200 emptyEnv 0 12
        "https://example.com/x" "youtube" invalidUrlResult) =
      some "AttributeError" ∧
    (crashEnv (get_media_info 7200 86400 7200 emptyEnv 0 12
        "https://example.com/x" "youtube" invalidUrlResult)).map
      (fun e => (kvLive e.activity 0 (LeaseKind.extract, 12)).isSome) =
      some true ∧
    (crashEnv (get_media_info 7200 86400 7200 emptyEnv 0 12
        "https://example.com/x" "youtube" invalidUrlResult)).map
      (fun e => failureCount e.messages) = some 0 ∧
    (okEnv (get_media_info 7200 86400 7200 emptyEnv 0 12
        "https://www.youtube.com/watch" "youtube" errResultWithData)).map
      (fun e => failureCount e.messages) = some 1 ∧
    (okEnv (get_media_info 7200 86400 7200 emptyEnv 0 12
        "https://www.youtube.com/watch" "youtube" errResultWithData)).map
      (fun e => (kvLive e.activity 0 (LeaseKind.extract, 12)).isSome) =
      some false :=
  ⟨rfl, rfl, rfl, rfl, rfl, rfl⟩
